import Mathlib

/-!
Shallow embedding of src/helper.py from the Object-Detection repository.

The program is a thin orchestration layer: Streamlit UI widgets, OpenCV
video captures, and calls into an external YOLO model. We embed each
function as a pure Lean function. External calls are recorded as events in
a trace; the behaviour of the external world (UI selections, the outcome
of each capture read, whether a library call raises an exception, the
values returned by the model library) is supplied by an environment
record. Each playback function returns the event trace it produces
together with an optional exception that escapes the function
(none in the normal case).
-/

namespace ObjDet

/-- Video frames, plotted images, uploaded files and model result objects
are identified by opaque tokens. -/
abbrev Frame := Nat

/-- Result object returned by the model library (the value of
model.track or model.predict). -/
abbrev Res := Nat

/-- The detection-confidence threshold chosen on the slider; an opaque
token, the code only passes it through. -/
abbrev Conf := Nat

/-- Height used by cv2.resize: the source writes int(720*(9/16)).
In Python 9/16, 720*0.5625 and the int conversion are all exact, giving
405; natural-number division gives the same value. -/
def resizeHeight : Nat := (720 * 9) / 16

/-- Python truthiness of an optional boolean (the is_display_tracking
parameter defaults to None, which is falsy). -/
def pyTruthy : Option Bool → Bool
  | some b => b
  | none => false

/-- Python truthiness of an optional string (None and the empty string
are falsy). -/
def pyTruthyStr : Option String → Bool
  | some s => !(s == "")
  | none => false

/-- The argument given to cv2.VideoCapture. -/
inductive CapSource
  | device (idx : Nat)
  | url (u : String)
  | tmpFile
deriving DecidableEq, Repr

/-- Observable external calls made by helper.py, in program order. -/
inductive Ev
  | resize (img : Frame) (w : Nat) (h : Nat)
  | trackCall (img : Frame) (conf : Conf) (persist : Bool) (tracker : Option String)
  | predictCall (img : Frame) (conf : Conf)
  | plotFirst (r : Res)
  | stImage (img : Frame) (caption : String) (channels : String) (useColumnWidth : Bool)
  | stVideo (file : Frame)
  | mkTempFile
  | openCap (src : CapSource)
  | readCap (result : Option Frame)
  | releaseCap
  | sidebarError (msg : String)
deriving DecidableEq, Repr

/-- Behaviour of the external model library: what model.track,
model.predict and the res[0].plot() chain return. -/
structure Model where
  trackFn : Frame → Conf → Bool → Option String → Res
  predictFn : Frame → Conf → Res
  plotFn : Res → Frame

/-- Behaviour of cv2.resize. -/
structure Cv2 where
  resizeFn : Frame → Nat → Nat → Frame

/-- One entry of the formats list inside the dictionary returned by
ydl.extract_info; f.get of vcodec may be absent, f is indexed directly
for url. -/
structure Fmt where
  vcodec : Option String
  url : String
deriving DecidableEq, Repr

/-- The dictionary returned by ydl.extract_info; info_dict.get of
formats may be absent. -/
structure InfoDict where
  formats : Option (List Fmt)
deriving DecidableEq, Repr

/-- Outcome of one iteration of a capture loop: the read returns a frame
with success True, returns success False, or the call raises. After the
list is exhausted, isOpened reports False. -/
inductive ReadStep
  | ok (f : Frame)
  | fail
  | raiseErr (e : String)
deriving DecidableEq, Repr

/-- The while vid_cap.isOpened() loop shared by all playback functions:
read a frame; on success run the per-frame body and continue; on failure
release the capture and break. Returns the trace of the loop and the
exception it raises, if any. -/
def frameLoop (proc : Frame → List Ev) : List ReadStep → List Ev × Option String
  | [] => ([], none)
  | ReadStep.ok f :: rest =>
      let r := frameLoop proc rest
      (Ev.readCap (some f) :: proc f ++ r.1, r.2)
  | ReadStep.fail :: _ => ([Ev.readCap none, Ev.releaseCap], none)
  | ReadStep.raiseErr e :: _ => ([], some e)

/-- display_tracker_options: two st.radio calls; returns the pair
(is_display_tracker, tracker_type or None). The arguments are the values
returned by the two radio widgets. -/
def display_tracker_options (displayTrackerSel : String) (trackerSel : String) :
    Bool × Option String :=
  let isDisplayTracker := if displayTrackerSel == "Yes" then true else false
  if isDisplayTracker then (isDisplayTracker, some trackerSel)
  else (isDisplayTracker, none)

/-- The body of _display_detected_frames: resize to (720, int(720*(9/16))),
one model.track or model.predict call, res[0].plot(), st_frame.image with
caption Detected Video, channels BGR, use_column_width True. In the source
is_display_tracking and tracker default to None; all callers pass both. -/
def display_detected_frames (M : Model) (C : Cv2) (conf : Conf) (image : Frame)
    (isDisplayTracking : Option Bool) (tracker : Option String) : List Ev :=
  let resized := C.resizeFn image 720 resizeHeight
  if pyTruthy isDisplayTracking then
    let res := M.trackFn resized conf true tracker
    [Ev.resize image 720 resizeHeight,
     Ev.trackCall resized conf true tracker,
     Ev.plotFirst res,
     Ev.stImage (M.plotFn res) "Detected Video" "BGR" true]
  else
    let res := M.predictFn resized conf
    [Ev.resize image 720 resizeHeight,
     Ev.predictCall resized conf,
     Ev.plotFirst res,
     Ev.stImage (M.plotFn res) "Detected Video" "BGR" true]

/-- The inline per-frame body in the loop of play_webcam: resize, track or
predict with persist True, res[0].plot(), st_frame.image with caption
Detected Video, channels BGR, use_column_width True. -/
def webcamFrameBody (M : Model) (C : Cv2) (conf : Conf)
    (isDisplayTracker : Bool) (tracker : Option String) (image : Frame) : List Ev :=
  let imageResized := C.resizeFn image 720 resizeHeight
  if isDisplayTracker then
    let res := M.trackFn imageResized conf true tracker
    [Ev.resize image 720 resizeHeight,
     Ev.trackCall imageResized conf true tracker,
     Ev.plotFirst res,
     Ev.stImage (M.plotFn res) "Detected Video" "BGR" true]
  else
    let res := M.predictFn imageResized conf
    [Ev.resize image 720 resizeHeight,
     Ev.predictCall imageResized conf,
     Ev.plotFirst res,
     Ev.stImage (M.plotFn res) "Detected Video" "BGR" true]

/-- Environment: UI selections, and the behaviour of every external call
a playback function can make. ctorRaises gives the message when the
cv2.VideoCapture constructor raises (none = it returns normally);
extractResult is the outcome of ydl.extract_info; reads drives the
capture loop. -/
structure Env where
  buttonPressed : Bool
  sourceText : String
  displayTrackerSel : String
  trackerSel : String
  uploadedFile : Option Frame
  extractResult : Except String InfoDict
  ctorRaises : Option String
  reads : List ReadStep
  M : Model
  C : Cv2

/-- The first format in list order whose vcodec (via f.get) is not the
string none: the source loop sets video_url = f[url] and breaks. -/
def firstVideoUrl : List Fmt → Option String
  | [] => none
  | f :: rest => if f.vcodec ≠ some "none" then some f.url else firstVideoUrl rest

/-- Python truthiness of the formats value (None and the empty list are
falsy): the guard if formats: around the selection loop. -/
def pyTruthyFormats : Option (List Fmt) → Bool
  | none => false
  | some fs => !fs.isEmpty

/-- The value of the video_url variable after lines 96-102: None unless
the formats list is truthy and contains a format with vcodec not none. -/
def videoUrlOf (info : InfoDict) : Option String :=
  if pyTruthyFormats info.formats then firstVideoUrl (info.formats.getD [])
  else none

/-- A generic except-handler that shows st.sidebar.error(msgPre + str(e))
and swallows the exception; used by play_youtube_video, play_webcam and
play_stored_video. -/
def handleWith (msgPre : String) : List Ev × Option String → List Ev × Option String
  | (evs, none) => (evs, none)
  | (evs, some e) => (evs ++ [Ev.sidebarError (msgPre ++ e)], none)

/-- The try-block body of play_youtube_video (lines 88-119): extract the
info, select video_url, and if it is truthy open a capture on it and run
the frame loop; otherwise show the sidebar error. -/
def youtubeTryBody (env : Env) (conf : Conf) (isDisp : Bool)
    (tracker : Option String) : List Ev × Option String :=
  match env.extractResult with
  | Except.error e => ([], some e)
  | Except.ok info =>
      match videoUrlOf info with
      | none => ([Ev.sidebarError "Failed to retrieve video URL."], none)
      | some u =>
          if u = "" then ([Ev.sidebarError "Failed to retrieve video URL."], none)
          else
            match env.ctorRaises with
            | some e => ([], some e)
            | none =>
                let r := frameLoop
                  (fun f => display_detected_frames env.M env.C conf f (some isDisp) tracker)
                  env.reads
                (Ev.openCap (CapSource.url u) :: r.1, r.2)

/-- play_youtube_video: text input, tracker options, and on the button
press the try body wrapped by the handler showing
Error loading video: str(e). -/
def play_youtube_video (env : Env) (conf : Conf) : List Ev × Option String :=
  let p := display_tracker_options env.displayTrackerSel env.trackerSel
  if env.buttonPressed then
    handleWith "Error loading video: " (youtubeTryBody env conf p.1 p.2)
  else ([], none)

/-- The try-block body of play_rtsp_stream (lines 144-161): open a
capture on the rtsp url and run the frame loop. -/
def rtspTryBody (env : Env) (conf : Conf) (isDisp : Bool)
    (tracker : Option String) : List Ev × Option String :=
  match env.ctorRaises with
  | some e => ([], some e)
  | none =>
      let r := frameLoop
        (fun f => display_detected_frames env.M env.C conf f (some isDisp) tracker)
        env.reads
      (Ev.openCap (CapSource.url env.sourceText) :: r.1, r.2)

/-- The except-handler of play_rtsp_stream runs vid_cap.release() before
st.sidebar.error. When the exception was raised by the VideoCapture call
itself, the local vid_cap was never assigned, so release() on the unbound
name raises an UnboundLocalError that escapes the function; capAssigned
records whether the assignment completed. -/
def rtspHandle (capAssigned : Bool) : List Ev × Option String → List Ev × Option String
  | (evs, none) => (evs, none)
  | (evs, some e) =>
      if capAssigned then
        (evs ++ [Ev.releaseCap, Ev.sidebarError ("Error loading RTSP stream: " ++ e)], none)
      else
        (evs, some "UnboundLocalError: vid_cap")

/-- play_rtsp_stream: text input, tracker options, and on the button
press the try body wrapped by the release-then-error handler. -/
def play_rtsp_stream (env : Env) (conf : Conf) : List Ev × Option String :=
  let p := display_tracker_options env.displayTrackerSel env.trackerSel
  if env.buttonPressed then
    rtspHandle env.ctorRaises.isNone (rtspTryBody env conf p.1 p.2)
  else ([], none)

/-- The try-block body of play_webcam (lines 185-211): open a capture on
device 0 (source_webcam = 0 is hard-coded) and run the frame loop with
the inline per-frame body. -/
def webcamTryBody (env : Env) (conf : Conf) (isDisp : Bool)
    (tracker : Option String) : List Ev × Option String :=
  match env.ctorRaises with
  | some e => ([], some e)
  | none =>
      let r := frameLoop (webcamFrameBody env.M env.C conf isDisp tracker) env.reads
      (Ev.openCap (CapSource.device 0) :: r.1, r.2)

/-- play_webcam: tracker options, and on the button press the try body
wrapped by the handler showing Error loading video: str(e). -/
def play_webcam (env : Env) (conf : Conf) : List Ev × Option String :=
  let p := display_tracker_options env.displayTrackerSel env.trackerSel
  if env.buttonPressed then
    handleWith "Error loading video: " (webcamTryBody env conf p.1 p.2)
  else ([], none)

/-- The try-block body of play_stored_video (lines 240-257): write the
upload to a temp file, open a capture on its name, run the frame loop. -/
def storedTryBody (env : Env) (conf : Conf) (isDisp : Bool)
    (tracker : Option String) : List Ev × Option String :=
  match env.ctorRaises with
  | some e => ([Ev.mkTempFile], some e)
  | none =>
      let r := frameLoop
        (fun f => display_detected_frames env.M env.C conf f (some isDisp) tracker)
        env.reads
      (Ev.mkTempFile :: Ev.openCap CapSource.tmpFile :: r.1, r.2)

/-- play_stored_video: file uploader, tracker options, st.video when a
file is uploaded, and on the button press either the try body wrapped by
the handler, or the sidebar error asking for an upload. -/
def play_stored_video (env : Env) (conf : Conf) : List Ev × Option String :=
  let p := display_tracker_options env.displayTrackerSel env.trackerSel
  let preEvs : List Ev :=
    match env.uploadedFile with
    | some v => [Ev.stVideo v]
    | none => []
  if env.buttonPressed then
    match env.uploadedFile with
    | some _ =>
        let r := handleWith "Error loading video: " (storedTryBody env conf p.1 p.2)
        (preEvs ++ r.1, r.2)
    | none => (preEvs ++ [Ev.sidebarError "Please upload a video file."], none)
  else (preEvs, none)

/-! Event classifiers and trace predicates. -/

/-- An inference call into the external model library. -/
def isInferEv : Ev → Bool
  | Ev.trackCall _ _ _ _ => true
  | Ev.predictCall _ _ => true
  | _ => false

/-- A vid_cap.read() call returning. -/
def isReadEv : Ev → Bool
  | Ev.readCap _ => true
  | _ => false

/-- A vid_cap.read() call that returned a frame successfully. -/
def isSuccessReadEv : Ev → Bool
  | Ev.readCap (some _) => true
  | _ => false

/-- A cv2.VideoCapture constructor returning. -/
def isOpenEv : Ev → Bool
  | Ev.openCap _ => true
  | _ => false

/-- A vid_cap.release() call. -/
def isReleaseEv : Ev → Bool
  | Ev.releaseCap => true
  | _ => false

/-- Any capture-lifecycle event: open, read or release. -/
def isLoopCtl : Ev → Bool
  | Ev.readCap _ => true
  | Ev.openCap _ => true
  | Ev.releaseCap => true
  | _ => false

/-- After any event satisfying trigger, no event satisfying bad occurs. -/
def noneAfter (bad trigger : Ev → Bool) : List Ev → Bool
  | [] => true
  | e :: rest =>
      ((!trigger e) || rest.all (fun x => !bad x)) && noneAfter bad trigger rest

/-- No read event occurs after a release event. -/
def noReadAfterRelease (l : List Ev) : Bool := noneAfter isReadEv isReleaseEv l

/-- A vid_cap.read() call that returned failure. -/
def isFailedReadEv : Ev → Bool
  | Ev.readCap none => true
  | _ => false

/-- After a read that returned failure, no further read and no further
capture open occurs. -/
def noReadOrOpenAfterFailedRead (l : List Ev) : Bool :=
  noneAfter (fun e => isReadEv e || isOpenEv e) isFailedReadEv l

/-- Every capture opened in the trace is video device 0. -/
def opensOnlyDevice0 (l : List Ev) : Bool :=
  l.all fun e =>
    match e with
    | Ev.openCap s => s == CapSource.device 0
    | _ => true

/-- Frames delivered by the maximal prefix of successful reads. -/
def okPrefix : List ReadStep → List Frame
  | ReadStep.ok f :: rest => f :: okPrefix rest
  | _ => []

/-- Events emitted by the loop after its last successful read: nothing
when isOpened turns false or a read raises, a failed read followed by a
release otherwise. -/
def stopEvs : List ReadStep → List Ev
  | [] => []
  | ReadStep.ok _ :: rest => stopEvs rest
  | ReadStep.fail :: _ => [Ev.readCap none, Ev.releaseCap]
  | ReadStep.raiseErr _ :: _ => []

/-- The exception the loop raises, if any. -/
def stopErr : List ReadStep → Option String
  | [] => none
  | ReadStep.ok _ :: rest => stopErr rest
  | ReadStep.fail :: _ => none
  | ReadStep.raiseErr e :: _ => some e

/-- The format selected by the claim: the first entry in list order whose
vcodec field is not the string none. -/
def specFirstVideoFmt (fs : List Fmt) : Option Fmt :=
  fs.find? fun f => f.vcodec != some "none"

/-! Concrete example environments, used to evaluate the embedding on
closed inputs. -/

/-- A concrete model behaviour. -/
def Mex : Model := ⟨fun i c _ _ => i + c + 1, fun i c => i + c + 2, fun r => r + 100⟩

/-- A concrete cv2.resize behaviour. -/
def Cex : Cv2 := ⟨fun i w h => i + w + h⟩

/-- A concrete info dictionary: an audio-only format followed by a video
format. -/
def infoEx : InfoDict := ⟨some [⟨some "none", "audio-url"⟩, ⟨some "h264", "video-url"⟩]⟩

/-- An environment on the happy path: button pressed, tracking on, two
successful reads and then a failed read. Fields: buttonPressed,
sourceText, displayTrackerSel, trackerSel, uploadedFile, extractResult,
ctorRaises, reads, M, C. -/
def envBase : Env :=
  ⟨true, "rtsp://cam", "Yes", "bytetrack.yaml", some 9, Except.ok infoEx, none,
   [ReadStep.ok 5, ReadStep.ok 6, ReadStep.fail], Mex, Cex⟩

/-- An environment in which the cv2.VideoCapture constructor raises. -/
def envCtorRaise : Env :=
  ⟨true, "rtsp://cam", "No", "bytetrack.yaml", some 9, Except.ok infoEx,
   some "cv2.error: bad handle", [], Mex, Cex⟩

/-- An environment in which a read raises mid-stream. -/
def envLoopRaise : Env :=
  ⟨true, "rtsp://cam", "No", "bytetrack.yaml", some 9, Except.ok infoEx, none,
   [ReadStep.ok 5, ReadStep.raiseErr "stream dropped"], Mex, Cex⟩

/-- An environment with no uploaded file. -/
def envNoFile : Env :=
  ⟨true, "", "No", "bytetrack.yaml", none, Except.ok infoEx, none,
   [ReadStep.ok 5, ReadStep.fail], Mex, Cex⟩

/-- An environment whose extracted info has only an audio format, so no
format has a video codec. -/
def envNoMatch : Env :=
  ⟨true, "https://youtu.be/x", "No", "bytetrack.yaml", some 9,
   Except.ok ⟨some [⟨some "none", "audio-url"⟩]⟩, none,
   [ReadStep.ok 5, ReadStep.fail], Mex, Cex⟩

/-! Helper lemmas. -/

theorem frameLoop_eq (proc : Frame → List Ev) (steps : List ReadStep) :
    frameLoop proc steps =
      ((okPrefix steps).flatMap (fun f => Ev.readCap (some f) :: proc f) ++ stopEvs steps,
       stopErr steps) := by
  induction steps with
  | nil => rfl
  | cons s rest ih =>
      cases s with
      | ok f => simp [frameLoop, okPrefix, stopEvs, stopErr, ih, List.flatMap_cons]
      | fail => rfl
      | raiseErr e => rfl

theorem all_not_of_imp (l : List Ev) (p q : Ev → Bool) (h : ∀ e, q e = true → p e = true)
    (hl : l.all (fun e => !p e) = true) : l.all (fun e => !q e) = true := by
  rw [List.all_eq_true] at hl ⊢
  intro e he
  have := hl e he
  cases hq : q e with
  | false => rfl
  | true => rw [h e hq] at this; exact this

theorem flatMap_all {α : Type} (l : List α) (g : α → List Ev) (p : Ev → Bool)
    (h : ∀ a, ((g a).all p) = true) : ((l.flatMap g).all p) = true := by
  induction l with
  | nil => rfl
  | cons a rest ih => simp [List.flatMap_cons, List.all_append, h a, ih]

theorem noneAfter_of_all_not_bad (bad trigger : Ev → Bool) (l : List Ev)
    (h : l.all (fun x => !bad x) = true) : noneAfter bad trigger l = true := by
  induction l with
  | nil => rfl
  | cons e rest ih =>
      rw [List.all_cons, Bool.and_eq_true] at h
      simp [noneAfter, ih h.2, h.2]

theorem noneAfter_append_right (bad trigger : Ev → Bool) (l1 l2 : List Ev)
    (h1 : noneAfter bad trigger l1 = true) (h2 : l2.all (fun x => !bad x) = true) :
    noneAfter bad trigger (l1 ++ l2) = true := by
  induction l1 with
  | nil => exact noneAfter_of_all_not_bad bad trigger l2 h2
  | cons e rest ih =>
      rw [noneAfter, Bool.and_eq_true] at h1
      rw [List.cons_append, noneAfter, Bool.and_eq_true]
      refine ⟨?_, ih h1.2⟩
      rcases Bool.or_eq_true_iff.mp h1.1 with h | h
      · rw [h]; rfl
      · rw [List.all_append, h, h2]; simp


theorem noneAfter_append_left (bad trigger : Ev → Bool) (l1 l2 : List Ev)
    (h1 : l1.all (fun x => !trigger x) = true) (h2 : noneAfter bad trigger l2 = true) :
    noneAfter bad trigger (l1 ++ l2) = true := by
  induction l1 with
  | nil => exact h2
  | cons e rest ih =>
      rw [List.all_cons, Bool.and_eq_true] at h1
      rw [List.cons_append, noneAfter, Bool.and_eq_true]
      exact ⟨by rw [Bool.or_eq_true_iff]; exact Or.inl h1.1, ih h1.2⟩

theorem display_detected_frames_noLoopCtl (M : Model) (C : Cv2) (conf : Conf)
    (image : Frame) (b : Option Bool) (t : Option String) :
    (display_detected_frames M C conf image b t).all (fun e => !isLoopCtl e) = true := by
  unfold display_detected_frames
  cases pyTruthy b <;> simp [isLoopCtl]

theorem webcamFrameBody_noLoopCtl (M : Model) (C : Cv2) (conf : Conf)
    (b : Bool) (t : Option String) (image : Frame) :
    (webcamFrameBody M C conf b t image).all (fun e => !isLoopCtl e) = true := by
  unfold webcamFrameBody
  cases b <;> simp [isLoopCtl]

theorem noneAfter_cons_not_trigger (bad trigger : Ev → Bool) (e : Ev) (l : List Ev)
    (he : trigger e = false) (hl : noneAfter bad trigger l = true) :
    noneAfter bad trigger (e :: l) = true := by
  rw [noneAfter, Bool.and_eq_true]
  exact ⟨by rw [he]; rfl, hl⟩

theorem all_of_noLoopCtl (l : List Ev) (q : Ev → Bool)
    (h : ∀ e, isLoopCtl e = false → q e = true)
    (hl : l.all (fun e => !isLoopCtl e) = true) : l.all q = true := by
  rw [List.all_eq_true] at hl ⊢
  intro e he
  exact h e (by simpa using hl e he)

theorem stopEvs_all (steps : List ReadStep) (p : Ev → Bool)
    (hr : p (Ev.readCap none) = true) (hrel : p Ev.releaseCap = true) :
    (stopEvs steps).all p = true := by
  induction steps with
  | nil => rfl
  | cons s rest ih =>
      cases s with
      | ok f => simpa [stopEvs] using ih
      | fail => simp [stopEvs, hr, hrel]
      | raiseErr e => rfl

theorem stopEvs_noneAfter (steps : List ReadStep) (bad trigger : Ev → Bool)
    (h : noneAfter bad trigger [Ev.readCap none, Ev.releaseCap] = true) :
    noneAfter bad trigger (stopEvs steps) = true := by
  induction steps with
  | nil => rfl
  | cons s rest ih =>
      cases s with
      | ok f => simpa [stopEvs] using ih
      | fail => exact h
      | raiseErr e => rfl

theorem frameLoop_all (proc : Frame → List Ev) (steps : List ReadStep) (p : Ev → Bool)
    (hproc : ∀ f, (proc f).all p = true)
    (hrs : ∀ o, p (Ev.readCap o) = true) (hrel : p Ev.releaseCap = true) :
    (frameLoop proc steps).1.all p = true := by
  rw [frameLoop_eq]
  dsimp only
  rw [List.all_append, Bool.and_eq_true]
  constructor
  · exact flatMap_all _ _ _ fun f => by
      rw [List.all_cons, Bool.and_eq_true]; exact ⟨hrs (some f), hproc f⟩
  · exact stopEvs_all steps p (hrs none) hrel

theorem noneAfter_frameLoop (proc : Frame → List Ev) (steps : List ReadStep)
    (bad trigger : Ev → Bool)
    (hproc : ∀ f, (proc f).all (fun e => !trigger e) = true)
    (htr : ∀ f, trigger (Ev.readCap (some f)) = false)
    (hstop : noneAfter bad trigger [Ev.readCap none, Ev.releaseCap] = true) :
    noneAfter bad trigger (frameLoop proc steps).1 = true := by
  rw [frameLoop_eq]
  dsimp only
  apply noneAfter_append_left
  · exact flatMap_all _ _ _ fun f => by
      rw [List.all_cons, Bool.and_eq_true]
      exact ⟨by rw [htr f]; rfl, hproc f⟩
  · exact stopEvs_noneAfter steps bad trigger hstop

theorem handleWith_fst (m : String) (evs : List Ev) (err : Option String) :
    (handleWith m (evs, err)).1 =
      evs ++ (match err with
              | none => []
              | some e => [Ev.sidebarError (m ++ e)]) := by
  cases err <;> simp [handleWith]

theorem handleWith_snd (m : String) (evs : List Ev) (err : Option String) :
    (handleWith m (evs, err)).2 = none := by
  cases err <;> rfl

theorem rtspHandle_true_fst (evs : List Ev) (err : Option String) :
    (rtspHandle true (evs, err)).1 =
      evs ++ (match err with
              | none => []
              | some e => [Ev.releaseCap,
                           Ev.sidebarError ("Error loading RTSP stream: " ++ e)]) := by
  cases err <;> simp [rtspHandle]

theorem rtspHandle_true_snd (evs : List Ev) (err : Option String) :
    (rtspHandle true (evs, err)).2 = none := by
  cases err <;> rfl

theorem firstVideoUrl_eq_find (fs : List Fmt) :
    firstVideoUrl fs = (specFirstVideoFmt fs).map Fmt.url := by
  induction fs with
  | nil => rfl
  | cons f rest ih =>
      unfold firstVideoUrl specFirstVideoFmt
      by_cases h : f.vcodec = some "none"
      · rw [if_neg (by simp [h]), List.find?_cons_of_neg _ (by simp [h])]
        rw [ih]; rfl
      · rw [if_pos h, List.find?_cons_of_pos _ (by simp [h])]
        rfl

theorem videoUrlOf_eq (info : InfoDict) :
    videoUrlOf info = (specFirstVideoFmt (info.formats.getD [])).map Fmt.url := by
  unfold videoUrlOf
  cases hf : info.formats with
  | none => rfl
  | some fs =>
      cases fs with
      | nil => rfl
      | cons f rest => simp [pyTruthyFormats, firstVideoUrl_eq_find]

theorem play_webcam_shape (env : Env) (conf : Conf) :
    (play_webcam env conf).1 = [] ∨
    (∃ m, (play_webcam env conf).1 = [Ev.sidebarError m]) ∨
    (∃ post,
      (play_webcam env conf).1 =
        Ev.openCap (CapSource.device 0) ::
          (frameLoop (webcamFrameBody env.M env.C conf
              (display_tracker_options env.displayTrackerSel env.trackerSel).1
              (display_tracker_options env.displayTrackerSel env.trackerSel).2)
            env.reads).1 ++ post ∧
      (post = [] ∨ ∃ m, post = [Ev.sidebarError m])) := by
  rcases hr : frameLoop (webcamFrameBody env.M env.C conf
      (display_tracker_options env.displayTrackerSel env.trackerSel).1
      (display_tracker_options env.displayTrackerSel env.trackerSel).2) env.reads
    with ⟨loopEvs, loopErr⟩
  unfold play_webcam webcamTryBody
  cases hb : env.buttonPressed
  · left; simp [hb]
  · cases hc : env.ctorRaises with
    | some e =>
        right; left
        exact ⟨"Error loading video: " ++ e, by simp [hb, hc, handleWith]⟩
    | none =>
        right; right
        cases loopErr with
        | none => exact ⟨[], by simp [hb, hc, hr, handleWith], Or.inl rfl⟩
        | some m =>
            exact ⟨[Ev.sidebarError ("Error loading video: " ++ m)],
              by simp [hb, hc, hr, handleWith], Or.inr ⟨_, rfl⟩⟩

theorem play_rtsp_shape (env : Env) (conf : Conf) :
    (play_rtsp_stream env conf).1 = [] ∨
    (∃ post,
      (play_rtsp_stream env conf).1 =
        Ev.openCap (CapSource.url env.sourceText) ::
          (frameLoop (fun f => display_detected_frames env.M env.C conf f
              (some (display_tracker_options env.displayTrackerSel env.trackerSel).1)
              (display_tracker_options env.displayTrackerSel env.trackerSel).2)
            env.reads).1 ++ post ∧
      (post = [] ∨ ∃ m, post = [Ev.releaseCap, Ev.sidebarError m])) := by
  rcases hr : frameLoop (fun f => display_detected_frames env.M env.C conf f
      (some (display_tracker_options env.displayTrackerSel env.trackerSel).1)
      (display_tracker_options env.displayTrackerSel env.trackerSel).2) env.reads
    with ⟨loopEvs, loopErr⟩
  unfold play_rtsp_stream rtspTryBody
  cases hb : env.buttonPressed
  · left; simp [hb]
  · cases hc : env.ctorRaises with
    | some e => left; simp [hb, hc, rtspHandle]
    | none =>
        right
        cases loopErr with
        | none => exact ⟨[], by simp [hb, hc, hr, rtspHandle], Or.inl rfl⟩
        | some m =>
            exact ⟨[Ev.releaseCap, Ev.sidebarError ("Error loading RTSP stream: " ++ m)],
              by simp [hb, hc, hr, rtspHandle], Or.inr ⟨_, rfl⟩⟩

theorem play_youtube_shape (env : Env) (conf : Conf) :
    (play_youtube_video env conf).1 = [] ∨
    (∃ m, (play_youtube_video env conf).1 = [Ev.sidebarError m]) ∨
    (∃ info u post,
      env.extractResult = Except.ok info ∧
      videoUrlOf info = some u ∧ ¬u = "" ∧
      (play_youtube_video env conf).1 =
        Ev.openCap (CapSource.url u) ::
          (frameLoop (fun f => display_detected_frames env.M env.C conf f
              (some (display_tracker_options env.displayTrackerSel env.trackerSel).1)
              (display_tracker_options env.displayTrackerSel env.trackerSel).2)
            env.reads).1 ++ post ∧
      (post = [] ∨ ∃ m, post = [Ev.sidebarError m])) := by
  rcases hr : frameLoop (fun f => display_detected_frames env.M env.C conf f
      (some (display_tracker_options env.displayTrackerSel env.trackerSel).1)
      (display_tracker_options env.displayTrackerSel env.trackerSel).2) env.reads
    with ⟨loopEvs, loopErr⟩
  unfold play_youtube_video youtubeTryBody
  cases hb : env.buttonPressed
  · left; simp [hb]
  · cases hex : env.extractResult with
    | error e =>
        right; left
        exact ⟨"Error loading video: " ++ e, by simp [hb, hex, handleWith]⟩
    | ok info =>
        cases hv : videoUrlOf info with
        | none =>
            right; left
            exact ⟨"Failed to retrieve video URL.", by simp [hb, hex, hv, handleWith]⟩
        | some u =>
            by_cases hu : u = ""
            · right; left
              exact ⟨"Failed to retrieve video URL.", by simp [hb, hex, hv, hu, handleWith]⟩
            · cases hc : env.ctorRaises with
              | some e =>
                  right; left
                  exact ⟨"Error loading video: " ++ e,
                    by simp [hb, hex, hv, hu, hc, handleWith]⟩
              | none =>
                  right; right
                  cases loopErr with
                  | none =>
                      exact ⟨info, u, [], rfl, hv, hu,
                        by simp [hb, hex, hv, hu, hc, hr, handleWith], Or.inl rfl⟩
                  | some m =>
                      exact ⟨info, u, [Ev.sidebarError ("Error loading video: " ++ m)],
                        rfl, hv, hu,
                        by simp [hb, hex, hv, hu, hc, hr, handleWith], Or.inr ⟨_, rfl⟩⟩

theorem play_stored_shape (env : Env) (conf : Conf) :
    ∃ pre, (pre = [] ∨ ∃ v, pre = [Ev.stVideo v]) ∧
      ((play_stored_video env conf).1 = pre ∨
       (play_stored_video env conf).1 =
         pre ++ [Ev.sidebarError "Please upload a video file."] ∨
       (∃ m, (play_stored_video env conf).1 = pre ++ [Ev.mkTempFile, Ev.sidebarError m]) ∨
       (∃ post,
         (play_stored_video env conf).1 =
           pre ++ Ev.mkTempFile :: Ev.openCap CapSource.tmpFile ::
             (frameLoop (fun f => display_detected_frames env.M env.C conf f
                 (some (display_tracker_options env.displayTrackerSel env.trackerSel).1)
                 (display_tracker_options env.displayTrackerSel env.trackerSel).2)
               env.reads).1 ++ post ∧
         (post = [] ∨ ∃ m, post = [Ev.sidebarError m]))) := by
  rcases hr : frameLoop (fun f => display_detected_frames env.M env.C conf f
      (some (display_tracker_options env.displayTrackerSel env.trackerSel).1)
      (display_tracker_options env.displayTrackerSel env.trackerSel).2) env.reads
    with ⟨loopEvs, loopErr⟩
  unfold play_stored_video storedTryBody
  cases hu : env.uploadedFile with
  | none =>
      refine ⟨[], Or.inl rfl, ?_⟩
      cases hb : env.buttonPressed
      · left; simp [hb, hu]
      · right; left; simp [hb, hu]
  | some v =>
      refine ⟨[Ev.stVideo v], Or.inr ⟨v, rfl⟩, ?_⟩
      cases hb : env.buttonPressed
      · left; simp [hb, hu]
      · cases hc : env.ctorRaises with
        | some e =>
            right; right; left
            exact ⟨"Error loading video: " ++ e, by simp [hb, hu, hc, handleWith]⟩
        | none =>
            right; right; right
            cases loopErr with
            | none => exact ⟨[], by simp [hb, hu, hc, hr, handleWith], Or.inl rfl⟩
            | some m =>
                exact ⟨[Ev.sidebarError ("Error loading video: " ++ m)],
                  by simp [hb, hu, hc, hr, handleWith], Or.inr ⟨_, rfl⟩⟩

theorem loop_noneAfter_of_trigger_ctl (proc : Frame → List Ev) (steps : List ReadStep)
    (bad trigger : Ev → Bool)
    (hnc : ∀ f, (proc f).all (fun e => !isLoopCtl e) = true)
    (himp : ∀ e, trigger e = true → isLoopCtl e = true)
    (htr : ∀ f, trigger (Ev.readCap (some f)) = false)
    (hstop : noneAfter bad trigger [Ev.readCap none, Ev.releaseCap] = true) :
    noneAfter bad trigger (frameLoop proc steps).1 = true :=
  noneAfter_frameLoop proc steps bad trigger
    (fun f => all_not_of_imp _ _ _ himp (hnc f)) htr hstop

theorem tryLoop_snd (proc : Frame → List Ev) (steps : List ReadStep) :
    (frameLoop proc steps).2 = stopErr steps := by
  rw [frameLoop_eq]

theorem ddf_countP_infer (M : Model) (C : Cv2) (conf : Conf) (f : Frame)
    (b : Bool) (t : Option String) :
    (display_detected_frames M C conf f (some b) t).countP isInferEv = 1 := by
  unfold display_detected_frames; cases b <;> rfl

theorem ddf_countP_success (M : Model) (C : Cv2) (conf : Conf) (f : Frame)
    (b : Bool) (t : Option String) :
    (display_detected_frames M C conf f (some b) t).countP isSuccessReadEv = 0 := by
  unfold display_detected_frames; cases b <;> rfl

theorem wfb_countP_infer (M : Model) (C : Cv2) (conf : Conf)
    (b : Bool) (t : Option String) (f : Frame) :
    (webcamFrameBody M C conf b t f).countP isInferEv = 1 := by
  unfold webcamFrameBody; cases b <;> rfl

theorem wfb_countP_success (M : Model) (C : Cv2) (conf : Conf)
    (b : Bool) (t : Option String) (f : Frame) :
    (webcamFrameBody M C conf b t f).countP isSuccessReadEv = 0 := by
  unfold webcamFrameBody; cases b <;> rfl

theorem countP_flatMap_blocks (proc : Frame → List Ev) (fs : List Frame) (p : Ev → Bool)
    (hc : ∀ f, (Ev.readCap (some f) :: proc f).countP p = 1) :
    ((fs.flatMap fun f => Ev.readCap (some f) :: proc f).countP p) = fs.length := by
  induction fs with
  | nil => rfl
  | cons f fs ih =>
      rw [List.flatMap_cons, List.countP_append, hc f, ih, List.length_cons]
      omega

theorem stopEvs_countP_zero (steps : List ReadStep) (p : Ev → Bool)
    (hr : p (Ev.readCap none) = false) (hrel : p Ev.releaseCap = false) :
    (stopEvs steps).countP p = 0 := by
  apply List.countP_eq_zero.mpr
  intro e he
  have h := stopEvs_all steps (fun x => !p x) (by simp [hr]) (by simp [hrel])
  rw [List.all_eq_true] at h
  simpa using h e he

theorem loop_infer_eq_success (proc : Frame → List Ev) (steps : List ReadStep)
    (h1 : ∀ f, (proc f).countP isInferEv = 1)
    (h0 : ∀ f, (proc f).countP isSuccessReadEv = 0) :
    ((frameLoop proc steps).1.countP isInferEv) =
      ((frameLoop proc steps).1.countP isSuccessReadEv) := by
  rw [frameLoop_eq]
  dsimp only
  rw [List.countP_append, List.countP_append]
  rw [countP_flatMap_blocks proc (okPrefix steps) isInferEv
        (fun f => by simp [List.countP_cons, isInferEv, h1 f]),
      countP_flatMap_blocks proc (okPrefix steps) isSuccessReadEv
        (fun f => by simp [List.countP_cons, isSuccessReadEv, h0 f]),
      stopEvs_countP_zero steps isInferEv rfl rfl,
      stopEvs_countP_zero steps isSuccessReadEv rfl rfl]

theorem isReleaseEv_ctl : ∀ e, isReleaseEv e = true → isLoopCtl e = true := by
  intro e he
  cases e <;> first | rfl | (exfalso; simp [isReleaseEv] at he)

theorem isFailedReadEv_ctl : ∀ e, isFailedReadEv e = true → isLoopCtl e = true := by
  intro e he
  cases e <;> first | rfl | (exfalso; simp [isFailedReadEv] at he)

/-! Claim theorems. -/

/-- C10: the inline per-frame processing in the loop body of play_webcam
is behaviourally equivalent to calling _display_detected_frames with the
same arguments: the same resize dimensions, the same track/predict
branching with persist True and identical call arguments, the same plot
of the first result, and the same Streamlit image display with caption
Detected Video and channels BGR. -/
theorem C10_webcam_inline_equiv (M : Model) (C : Cv2) (conf : Conf)
    (b : Bool) (t : Option String) (image : Frame) :
    webcamFrameBody M C conf b t image =
      display_detected_frames M C conf image (some b) t := by
  unfold webcamFrameBody display_detected_frames
  cases b <;> rfl

/-- C6: when the two radio widgets return one of their offered options,
display_tracker_options returns exactly one of (True, bytetrack.yaml),
(True, botsort.yaml) or (False, None), and the tracker component is None
exactly when tracker display is disabled. -/
theorem C6_tracker_options (dSel tSel : String)
    (hd : dSel = "Yes" ∨ dSel = "No")
    (ht : tSel = "bytetrack.yaml" ∨ tSel = "botsort.yaml") :
    (display_tracker_options dSel tSel = (true, some "bytetrack.yaml") ∨
     display_tracker_options dSel tSel = (true, some "botsort.yaml") ∨
     display_tracker_options dSel tSel = (false, none)) ∧
    ((display_tracker_options dSel tSel).2 = none ↔
      (display_tracker_options dSel tSel).1 = false) := by
  rcases hd with rfl | rfl <;> rcases ht with rfl | rfl <;>
    exact ⟨by decide, by decide⟩

/-- Witness for C6 at the concrete radio selections Yes and botsort. -/
theorem C6_witness :
    (display_tracker_options "Yes" "botsort.yaml" = (true, some "bytetrack.yaml") ∨
     display_tracker_options "Yes" "botsort.yaml" = (true, some "botsort.yaml") ∨
     display_tracker_options "Yes" "botsort.yaml" = (false, none)) ∧
    ((display_tracker_options "Yes" "botsort.yaml").2 = none ↔
      (display_tracker_options "Yes" "botsort.yaml").1 = false) :=
  C6_tracker_options "Yes" "botsort.yaml" (Or.inl rfl) (Or.inr rfl)

/-- C8: for every session environment, every capture play_webcam opens is
video device 0; the hard-coded source_webcam = 0 makes the opened capture
independent of every user input and UI selection in the environment. -/
theorem C8_webcam_device0 (env : Env) (conf : Conf) :
    opensOnlyDevice0 (play_webcam env conf).1 = true := by
  rcases play_webcam_shape env conf with h | ⟨m, h⟩ | ⟨post, h, hpost⟩ <;> rw [h]
  · rfl
  · rfl
  · unfold opensOnlyDevice0
    simp only [List.cons_append, List.all_cons, List.all_append, Bool.and_eq_true]
    refine ⟨rfl, ?_, ?_⟩
    · apply frameLoop_all
      · intro f
        apply all_of_noLoopCtl _ _ ?_ (webcamFrameBody_noLoopCtl _ _ _ _ _ _)
        intro e he
        cases e <;> first | rfl | (exfalso; simp [isLoopCtl] at he)
      · intro o; rfl
      · rfl
    · rcases hpost with rfl | ⟨m, rfl⟩ <;> rfl

/-- C1: in every playback function each successfully read frame is
processed by the straight-line sequence resize to 720 by
int(720*(9/16)) = 405, exactly one inference call, plot of the first
result element, push of the plotted image to the Streamlit frame widget,
with no buffering and no other step between read and display: both
per-frame bodies produce exactly that four-event trace, the frame loop
emits for each successful read exactly the read event followed by the
body trace, and each playback function runs its loop with one of the two
bodies. -/
theorem C1_per_frame_pipeline :
    resizeHeight = 405 ∧
    (∀ (M : Model) (C : Cv2) (conf : Conf) (f : Frame) (t : Option String),
      display_detected_frames M C conf f (some true) t =
        [Ev.resize f 720 resizeHeight,
         Ev.trackCall (C.resizeFn f 720 resizeHeight) conf true t,
         Ev.plotFirst (M.trackFn (C.resizeFn f 720 resizeHeight) conf true t),
         Ev.stImage (M.plotFn (M.trackFn (C.resizeFn f 720 resizeHeight) conf true t))
           "Detected Video" "BGR" true] ∧
      display_detected_frames M C conf f (some false) t =
        [Ev.resize f 720 resizeHeight,
         Ev.predictCall (C.resizeFn f 720 resizeHeight) conf,
         Ev.plotFirst (M.predictFn (C.resizeFn f 720 resizeHeight) conf),
         Ev.stImage (M.plotFn (M.predictFn (C.resizeFn f 720 resizeHeight) conf))
           "Detected Video" "BGR" true] ∧
      webcamFrameBody M C conf true t f =
        display_detected_frames M C conf f (some true) t ∧
      webcamFrameBody M C conf false t f =
        display_detected_frames M C conf f (some false) t) ∧
    (∀ (proc : Frame → List Ev) (steps : List ReadStep),
      (frameLoop proc steps).1 =
        (okPrefix steps).flatMap (fun f => Ev.readCap (some f) :: proc f) ++
          stopEvs steps) ∧
    (∀ env conf, env.buttonPressed = true → env.ctorRaises = none →
      (play_rtsp_stream env conf).1 =
        Ev.openCap (CapSource.url env.sourceText) ::
          (frameLoop (fun f => display_detected_frames env.M env.C conf f
              (some (display_tracker_options env.displayTrackerSel env.trackerSel).1)
              (display_tracker_options env.displayTrackerSel env.trackerSel).2)
            env.reads).1 ++
          (match stopErr env.reads with
           | none => []
           | some m => [Ev.releaseCap,
                        Ev.sidebarError ("Error loading RTSP stream: " ++ m)])) ∧
    (∀ env conf, env.buttonPressed = true → env.ctorRaises = none →
      (play_webcam env conf).1 =
        Ev.openCap (CapSource.device 0) ::
          (frameLoop (webcamFrameBody env.M env.C conf
              (display_tracker_options env.displayTrackerSel env.trackerSel).1
              (display_tracker_options env.displayTrackerSel env.trackerSel).2)
            env.reads).1 ++
          (match stopErr env.reads with
           | none => []
           | some m => [Ev.sidebarError ("Error loading video: " ++ m)])) ∧
    (∀ env conf v, env.buttonPressed = true → env.ctorRaises = none →
      env.uploadedFile = some v →
      (play_stored_video env conf).1 =
        Ev.stVideo v :: Ev.mkTempFile :: Ev.openCap CapSource.tmpFile ::
          (frameLoop (fun f => display_detected_frames env.M env.C conf f
              (some (display_tracker_options env.displayTrackerSel env.trackerSel).1)
              (display_tracker_options env.displayTrackerSel env.trackerSel).2)
            env.reads).1 ++
          (match stopErr env.reads with
           | none => []
           | some m => [Ev.sidebarError ("Error loading video: " ++ m)])) ∧
    (∀ env conf info u, env.buttonPressed = true → env.ctorRaises = none →
      env.extractResult = Except.ok info → videoUrlOf info = some u → ¬u = "" →
      (play_youtube_video env conf).1 =
        Ev.openCap (CapSource.url u) ::
          (frameLoop (fun f => display_detected_frames env.M env.C conf f
              (some (display_tracker_options env.displayTrackerSel env.trackerSel).1)
              (display_tracker_options env.displayTrackerSel env.trackerSel).2)
            env.reads).1 ++
          (match stopErr env.reads with
           | none => []
           | some m => [Ev.sidebarError ("Error loading video: " ++ m)])) := by
  refine ⟨rfl, fun M C conf f t => ⟨rfl, rfl, rfl, rfl⟩,
    fun proc steps => by rw [frameLoop_eq], ?_, ?_, ?_, ?_⟩
  · intro env conf hb hc
    unfold play_rtsp_stream rtspTryBody
    have h2 := tryLoop_snd (fun f => display_detected_frames env.M env.C conf f
        (some (display_tracker_options env.displayTrackerSel env.trackerSel).1)
        (display_tracker_options env.displayTrackerSel env.trackerSel).2) env.reads
    cases hstop : stopErr env.reads <;>
      rw [hstop] at h2 <;> simp [hb, hc, h2, rtspHandle]
  · intro env conf hb hc
    unfold play_webcam webcamTryBody
    have h2 := tryLoop_snd (webcamFrameBody env.M env.C conf
        (display_tracker_options env.displayTrackerSel env.trackerSel).1
        (display_tracker_options env.displayTrackerSel env.trackerSel).2) env.reads
    cases hstop : stopErr env.reads <;>
      rw [hstop] at h2 <;> simp [hb, hc, h2, handleWith]
  · intro env conf v hb hc hv
    unfold play_stored_video storedTryBody
    have h2 := tryLoop_snd (fun f => display_detected_frames env.M env.C conf f
        (some (display_tracker_options env.displayTrackerSel env.trackerSel).1)
        (display_tracker_options env.displayTrackerSel env.trackerSel).2) env.reads
    cases hstop : stopErr env.reads <;>
      rw [hstop] at h2 <;> simp [hb, hc, hv, h2, handleWith]
  · intro env conf info u hb hc hex hvu hu
    unfold play_youtube_video youtubeTryBody
    have h2 := tryLoop_snd (fun f => display_detected_frames env.M env.C conf f
        (some (display_tracker_options env.displayTrackerSel env.trackerSel).1)
        (display_tracker_options env.displayTrackerSel env.trackerSel).2) env.reads
    cases hstop : stopErr env.reads <;>
      rw [hstop] at h2 <;> simp [hb, hc, hex, hvu, hu, h2, handleWith]

/-- Witness for C1: the playback-trace clauses evaluated in the concrete
environment envBase. -/
theorem C1_witness :
    ((play_rtsp_stream envBase 3).1 =
      Ev.openCap (CapSource.url envBase.sourceText) ::
        (frameLoop (fun f => display_detected_frames envBase.M envBase.C 3 f
            (some (display_tracker_options envBase.displayTrackerSel envBase.trackerSel).1)
            (display_tracker_options envBase.displayTrackerSel envBase.trackerSel).2)
          envBase.reads).1 ++
        (match stopErr envBase.reads with
         | none => []
         | some m => [Ev.releaseCap,
                      Ev.sidebarError ("Error loading RTSP stream: " ++ m)])) ∧
    ((play_youtube_video envBase 3).1 =
      Ev.openCap (CapSource.url "video-url") ::
        (frameLoop (fun f => display_detected_frames envBase.M envBase.C 3 f
            (some (display_tracker_options envBase.displayTrackerSel envBase.trackerSel).1)
            (display_tracker_options envBase.displayTrackerSel envBase.trackerSel).2)
          envBase.reads).1 ++
        (match stopErr envBase.reads with
         | none => []
         | some m => [Ev.sidebarError ("Error loading video: " ++ m)])) :=
  ⟨C1_per_frame_pipeline.2.2.2.1 envBase 3 rfl rfl,
   C1_per_frame_pipeline.2.2.2.2.2.2 envBase 3 infoEx "video-url" rfl rfl rfl
     (by decide) (by decide)⟩

/-- C3: each successfully read frame triggers exactly one call into the
external inference library, model.track with persist True and the chosen
tracker when tracker display is enabled and model.predict otherwise, and
the confidence threshold conf is passed through unchanged; at loop level
the number of inference calls equals the number of successful reads in
every playback function. -/
theorem C3_one_inference_per_frame :
    (∀ (M : Model) (C : Cv2) (conf : Conf) (f : Frame) (t : Option String),
      (display_detected_frames M C conf f (some true) t).filter isInferEv =
        [Ev.trackCall (C.resizeFn f 720 resizeHeight) conf true t] ∧
      (display_detected_frames M C conf f (some false) t).filter isInferEv =
        [Ev.predictCall (C.resizeFn f 720 resizeHeight) conf] ∧
      (webcamFrameBody M C conf true t f).filter isInferEv =
        [Ev.trackCall (C.resizeFn f 720 resizeHeight) conf true t] ∧
      (webcamFrameBody M C conf false t f).filter isInferEv =
        [Ev.predictCall (C.resizeFn f 720 resizeHeight) conf]) ∧
    (∀ (proc : Frame → List Ev) (steps : List ReadStep),
      (∀ f, (proc f).countP isInferEv = 1) →
      (∀ f, (proc f).countP isSuccessReadEv = 0) →
      ((frameLoop proc steps).1.countP isInferEv) =
        ((frameLoop proc steps).1.countP isSuccessReadEv)) ∧
    (∀ env conf, ((play_youtube_video env conf).1.countP isInferEv) =
      ((play_youtube_video env conf).1.countP isSuccessReadEv)) ∧
    (∀ env conf, ((play_rtsp_stream env conf).1.countP isInferEv) =
      ((play_rtsp_stream env conf).1.countP isSuccessReadEv)) ∧
    (∀ env conf, ((play_webcam env conf).1.countP isInferEv) =
      ((play_webcam env conf).1.countP isSuccessReadEv)) ∧
    (∀ env conf, ((play_stored_video env conf).1.countP isInferEv) =
      ((play_stored_video env conf).1.countP isSuccessReadEv)) := by
  refine ⟨fun M C conf f t => ⟨rfl, rfl, rfl, rfl⟩, loop_infer_eq_success,
    ?_, ?_, ?_, ?_⟩
  · intro env conf
    rcases play_youtube_shape env conf with h | ⟨m, h⟩ |
      ⟨info, u, post, _, _, _, h, hpost⟩ <;> rw [h]
    · rfl
    · rfl
    · have hl := loop_infer_eq_success
        (fun f => display_detected_frames env.M env.C conf f
          (some (display_tracker_options env.displayTrackerSel env.trackerSel).1)
          (display_tracker_options env.displayTrackerSel env.trackerSel).2) env.reads
        (fun f => ddf_countP_infer env.M env.C conf f _ _)
        (fun f => ddf_countP_success env.M env.C conf f _ _)
      rcases hpost with rfl | ⟨m, rfl⟩ <;>
        simp [List.countP_cons, List.countP_append, isInferEv, isSuccessReadEv, hl]
  · intro env conf
    rcases play_rtsp_shape env conf with h | ⟨post, h, hpost⟩ <;> rw [h]
    · rfl
    · have hl := loop_infer_eq_success
        (fun f => display_detected_frames env.M env.C conf f
          (some (display_tracker_options env.displayTrackerSel env.trackerSel).1)
          (display_tracker_options env.displayTrackerSel env.trackerSel).2) env.reads
        (fun f => ddf_countP_infer env.M env.C conf f _ _)
        (fun f => ddf_countP_success env.M env.C conf f _ _)
      rcases hpost with rfl | ⟨m, rfl⟩ <;>
        simp [List.countP_cons, List.countP_append, isInferEv, isSuccessReadEv, hl]
  · intro env conf
    rcases play_webcam_shape env conf with h | ⟨m, h⟩ | ⟨post, h, hpost⟩ <;> rw [h]
    · rfl
    · rfl
    · have hl := loop_infer_eq_success
        (webcamFrameBody env.M env.C conf
          (display_tracker_options env.displayTrackerSel env.trackerSel).1
          (display_tracker_options env.displayTrackerSel env.trackerSel).2) env.reads
        (fun f => wfb_countP_infer env.M env.C conf _ _ f)
        (fun f => wfb_countP_success env.M env.C conf _ _ f)
      rcases hpost with rfl | ⟨m, rfl⟩ <;>
        simp [List.countP_cons, List.countP_append, isInferEv, isSuccessReadEv, hl]
  · intro env conf
    rcases play_stored_shape env conf with ⟨pre, hpre, h | h | ⟨m, h⟩ | ⟨post, h, hpost⟩⟩ <;>
      rw [h]
    · rcases hpre with rfl | ⟨v, rfl⟩ <;> rfl
    · rcases hpre with rfl | ⟨v, rfl⟩ <;> rfl
    · rcases hpre with rfl | ⟨v, rfl⟩ <;> rfl
    · have hl := loop_infer_eq_success
        (fun f => display_detected_frames env.M env.C conf f
          (some (display_tracker_options env.displayTrackerSel env.trackerSel).1)
          (display_tracker_options env.displayTrackerSel env.trackerSel).2) env.reads
        (fun f => ddf_countP_infer env.M env.C conf f _ _)
        (fun f => ddf_countP_success env.M env.C conf f _ _)
      rcases hpre with rfl | ⟨v, rfl⟩ <;> rcases hpost with rfl | ⟨m, rfl⟩ <;>
        simp [List.countP_cons, List.countP_append, isInferEv, isSuccessReadEv, hl]

/-- Witness for C3: the loop-level clause evaluated with the webcam body
in a concrete environment. -/
theorem C3_witness :
    ((frameLoop (webcamFrameBody Mex Cex 3 true (some "bytetrack.yaml"))
        [ReadStep.ok 4, ReadStep.fail]).1.countP isInferEv) =
      ((frameLoop (webcamFrameBody Mex Cex 3 true (some "bytetrack.yaml"))
        [ReadStep.ok 4, ReadStep.fail]).1.countP isSuccessReadEv) :=
  C3_one_inference_per_frame.2.1 _ _
    (fun f => wfb_countP_infer Mex Cex 3 true (some "bytetrack.yaml") f)
    (fun f => wfb_countP_success Mex Cex 3 true (some "bytetrack.yaml") f)

/-- C4: every capture follows the lifecycle open capture, read frames
while the capture reports isOpened, release on the first failed read: on
a run of successful reads followed by a failed read the loop emits
exactly the reads, the failed read and the release, then exits ignoring
the remaining steps; and in every playback trace no read event occurs
after a release event. -/
theorem C4_capture_lifecycle :
    (∀ (proc : Frame → List Ev) (fs : List Frame) (rest : List ReadStep),
      frameLoop proc (fs.map ReadStep.ok ++ ReadStep.fail :: rest) =
        ((fs.flatMap fun f => Ev.readCap (some f) :: proc f) ++
          [Ev.readCap none, Ev.releaseCap], none)) ∧
    (∀ env conf, noReadAfterRelease (play_youtube_video env conf).1 = true) ∧
    (∀ env conf, noReadAfterRelease (play_rtsp_stream env conf).1 = true) ∧
    (∀ env conf, noReadAfterRelease (play_webcam env conf).1 = true) ∧
    (∀ env conf, noReadAfterRelease (play_stored_video env conf).1 = true) := by
  refine ⟨?_, ?_, ?_, ?_, ?_⟩
  · intro proc fs rest
    induction fs with
    | nil => rfl
    | cons f fs ih => simp [frameLoop, ih, List.flatMap_cons]
  · intro env conf
    rcases play_youtube_shape env conf with h | ⟨m, h⟩ |
      ⟨info, u, post, _, _, _, h, hpost⟩ <;> rw [h]
    · rfl
    · rfl
    · unfold noReadAfterRelease
      refine noneAfter_cons_not_trigger _ _ _ _ rfl ?_
      refine noneAfter_append_right _ _ _ _ ?_ ?_
      · exact loop_noneAfter_of_trigger_ctl _ _ _ _
          (fun f => display_detected_frames_noLoopCtl _ _ _ _ _ _)
          isReleaseEv_ctl (fun f => rfl) (by decide)
      · rcases hpost with rfl | ⟨m, rfl⟩ <;> rfl
  · intro env conf
    rcases play_rtsp_shape env conf with h | ⟨post, h, hpost⟩ <;> rw [h]
    · rfl
    · unfold noReadAfterRelease
      refine noneAfter_cons_not_trigger _ _ _ _ rfl ?_
      refine noneAfter_append_right _ _ _ _ ?_ ?_
      · exact loop_noneAfter_of_trigger_ctl _ _ _ _
          (fun f => display_detected_frames_noLoopCtl _ _ _ _ _ _)
          isReleaseEv_ctl (fun f => rfl) (by decide)
      · rcases hpost with rfl | ⟨m, rfl⟩ <;> rfl
  · intro env conf
    rcases play_webcam_shape env conf with h | ⟨m, h⟩ | ⟨post, h, hpost⟩ <;> rw [h]
    · rfl
    · rfl
    · unfold noReadAfterRelease
      refine noneAfter_cons_not_trigger _ _ _ _ rfl ?_
      refine noneAfter_append_right _ _ _ _ ?_ ?_
      · exact loop_noneAfter_of_trigger_ctl _ _ _ _
          (fun f => webcamFrameBody_noLoopCtl _ _ _ _ _ _)
          isReleaseEv_ctl (fun f => rfl) (by decide)
      · rcases hpost with rfl | ⟨m, rfl⟩ <;> rfl
  · intro env conf
    rcases play_stored_shape env conf with
      ⟨pre, hpre, h | h | ⟨m, h⟩ | ⟨post, h, hpost⟩⟩ <;> rw [h]
    · rcases hpre with rfl | ⟨v, rfl⟩ <;> rfl
    · rcases hpre with rfl | ⟨v, rfl⟩ <;> rfl
    · rcases hpre with rfl | ⟨v, rfl⟩ <;> rfl
    · unfold noReadAfterRelease
      rcases hpre with rfl | ⟨v, rfl⟩ <;>
        simp only [List.nil_append, List.cons_append] <;>
        (repeat refine noneAfter_cons_not_trigger _ _ _ _ rfl ?_) <;>
        refine noneAfter_append_right _ _ _ _ ?_ ?_
      · exact loop_noneAfter_of_trigger_ctl _ _ _ _
          (fun f => display_detected_frames_noLoopCtl _ _ _ _ _ _)
          isReleaseEv_ctl (fun f => rfl) (by decide)
      · rcases hpost with rfl | ⟨m, rfl⟩ <;> rfl
      · exact loop_noneAfter_of_trigger_ctl _ _ _ _
          (fun f => display_detected_frames_noLoopCtl _ _ _ _ _ _)
          isReleaseEv_ctl (fun f => rfl) (by decide)
      · rcases hpost with rfl | ⟨m, rfl⟩ <;> rfl

/-- C5: after a read fails, nothing is retried on the same button press:
the loop result is independent of every step after the first failed read,
and in every playback trace no read event and no capture-open event
occurs after a failed read event. -/
theorem C5_no_retry_after_failure :
    (∀ (proc : Frame → List Ev) (fs : List Frame) (rest rest2 : List ReadStep),
      frameLoop proc (fs.map ReadStep.ok ++ ReadStep.fail :: rest) =
        frameLoop proc (fs.map ReadStep.ok ++ ReadStep.fail :: rest2)) ∧
    (∀ env conf, noReadOrOpenAfterFailedRead (play_youtube_video env conf).1 = true) ∧
    (∀ env conf, noReadOrOpenAfterFailedRead (play_rtsp_stream env conf).1 = true) ∧
    (∀ env conf, noReadOrOpenAfterFailedRead (play_webcam env conf).1 = true) ∧
    (∀ env conf, noReadOrOpenAfterFailedRead (play_stored_video env conf).1 = true) := by
  refine ⟨?_, ?_, ?_, ?_, ?_⟩
  · intro proc fs rest rest2
    induction fs with
    | nil => rfl
    | cons f fs ih => simp [frameLoop, ih]
  · intro env conf
    rcases play_youtube_shape env conf with h | ⟨m, h⟩ |
      ⟨info, u, post, _, _, _, h, hpost⟩ <;> rw [h]
    · rfl
    · rfl
    · unfold noReadOrOpenAfterFailedRead
      refine noneAfter_cons_not_trigger _ _ _ _ rfl ?_
      refine noneAfter_append_right _ _ _ _ ?_ ?_
      · exact loop_noneAfter_of_trigger_ctl _ _ _ _
          (fun f => display_detected_frames_noLoopCtl _ _ _ _ _ _)
          isFailedReadEv_ctl (fun f => rfl) (by decide)
      · rcases hpost with rfl | ⟨m, rfl⟩ <;> rfl
  · intro env conf
    rcases play_rtsp_shape env conf with h | ⟨post, h, hpost⟩ <;> rw [h]
    · rfl
    · unfold noReadOrOpenAfterFailedRead
      refine noneAfter_cons_not_trigger _ _ _ _ rfl ?_
      refine noneAfter_append_right _ _ _ _ ?_ ?_
      · exact loop_noneAfter_of_trigger_ctl _ _ _ _
          (fun f => display_detected_frames_noLoopCtl _ _ _ _ _ _)
          isFailedReadEv_ctl (fun f => rfl) (by decide)
      · rcases hpost with rfl | ⟨m, rfl⟩ <;> rfl
  · intro env conf
    rcases play_webcam_shape env conf with h | ⟨m, h⟩ | ⟨post, h, hpost⟩ <;> rw [h]
    · rfl
    · rfl
    · unfold noReadOrOpenAfterFailedRead
      refine noneAfter_cons_not_trigger _ _ _ _ rfl ?_
      refine noneAfter_append_right _ _ _ _ ?_ ?_
      · exact loop_noneAfter_of_trigger_ctl _ _ _ _
          (fun f => webcamFrameBody_noLoopCtl _ _ _ _ _ _)
          isFailedReadEv_ctl (fun f => rfl) (by decide)
      · rcases hpost with rfl | ⟨m, rfl⟩ <;> rfl
  · intro env conf
    rcases play_stored_shape env conf with
      ⟨pre, hpre, h | h | ⟨m, h⟩ | ⟨post, h, hpost⟩⟩ <;> rw [h]
    · rcases hpre with rfl | ⟨v, rfl⟩ <;> rfl
    · rcases hpre with rfl | ⟨v, rfl⟩ <;> rfl
    · rcases hpre with rfl | ⟨v, rfl⟩ <;> rfl
    · unfold noReadOrOpenAfterFailedRead
      rcases hpre with rfl | ⟨v, rfl⟩ <;>
        simp only [List.nil_append, List.cons_append] <;>
        (repeat refine noneAfter_cons_not_trigger _ _ _ _ rfl ?_) <;>
        refine noneAfter_append_right _ _ _ _ ?_ ?_
      · exact loop_noneAfter_of_trigger_ctl _ _ _ _
          (fun f => display_detected_frames_noLoopCtl _ _ _ _ _ _)
          isFailedReadEv_ctl (fun f => rfl) (by decide)
      · rcases hpost with rfl | ⟨m, rfl⟩ <;> rfl
      · exact loop_noneAfter_of_trigger_ctl _ _ _ _
          (fun f => display_detected_frames_noLoopCtl _ _ _ _ _ _)
          isFailedReadEv_ctl (fun f => rfl) (by decide)
      · rcases hpost with rfl | ⟨m, rfl⟩ <;> rfl

/-- C2 as stated is refuted here: in an environment where the
cv2.VideoCapture call inside the try block of play_rtsp_stream raises,
the except handler calls release() on the never-assigned local vid_cap,
an UnboundLocalError escapes the playback function, and no sidebar error
string is shown. -/
theorem C2_counterexample :
    (play_rtsp_stream envCtorRaise 1).2 = some "UnboundLocalError: vid_cap" ∧
    (play_rtsp_stream envCtorRaise 1).1 = [] :=
  ⟨rfl, rfl⟩

/-- C2 (amended): play_youtube_video, play_webcam and play_stored_video
wrap playback in a single-level try/except, so no exception escapes them
in any environment and an exception raised in the try body is surfaced
as a sidebar error string; play_rtsp_stream gives the same guarantees
exactly when the capture constructor itself does not raise (otherwise
its handler fails on the unbound capture variable). -/
theorem C2_exceptions_caught :
    (∀ env conf, (play_youtube_video env conf).2 = none) ∧
    (∀ env conf, (play_webcam env conf).2 = none) ∧
    (∀ env conf, (play_stored_video env conf).2 = none) ∧
    (∀ env conf, env.ctorRaises = none → (play_rtsp_stream env conf).2 = none) ∧
    (∀ env conf e, env.buttonPressed = true →
      (youtubeTryBody env conf
        (display_tracker_options env.displayTrackerSel env.trackerSel).1
        (display_tracker_options env.displayTrackerSel env.trackerSel).2).2 = some e →
      Ev.sidebarError ("Error loading video: " ++ e) ∈ (play_youtube_video env conf).1) ∧
    (∀ env conf e, env.buttonPressed = true →
      (webcamTryBody env conf
        (display_tracker_options env.displayTrackerSel env.trackerSel).1
        (display_tracker_options env.displayTrackerSel env.trackerSel).2).2 = some e →
      Ev.sidebarError ("Error loading video: " ++ e) ∈ (play_webcam env conf).1) ∧
    (∀ env conf e v, env.buttonPressed = true → env.uploadedFile = some v →
      (storedTryBody env conf
        (display_tracker_options env.displayTrackerSel env.trackerSel).1
        (display_tracker_options env.displayTrackerSel env.trackerSel).2).2 = some e →
      Ev.sidebarError ("Error loading video: " ++ e) ∈ (play_stored_video env conf).1) ∧
    (∀ env conf e, env.buttonPressed = true → env.ctorRaises = none →
      (rtspTryBody env conf
        (display_tracker_options env.displayTrackerSel env.trackerSel).1
        (display_tracker_options env.displayTrackerSel env.trackerSel).2).2 = some e →
      Ev.sidebarError ("Error loading RTSP stream: " ++ e) ∈
        (play_rtsp_stream env conf).1) := by
  refine ⟨?_, ?_, ?_, ?_, ?_, ?_, ?_, ?_⟩
  · intro env conf
    unfold play_youtube_video
    cases hb : env.buttonPressed
    · simp [hb]
    · rcases ht : youtubeTryBody env conf
        (display_tracker_options env.displayTrackerSel env.trackerSel).1
        (display_tracker_options env.displayTrackerSel env.trackerSel).2
        with ⟨evs, err⟩
      simp [hb, ht, handleWith_snd]
  · intro env conf
    unfold play_webcam
    cases hb : env.buttonPressed
    · simp [hb]
    · rcases ht : webcamTryBody env conf
        (display_tracker_options env.displayTrackerSel env.trackerSel).1
        (display_tracker_options env.displayTrackerSel env.trackerSel).2
        with ⟨evs, err⟩
      simp [hb, ht, handleWith_snd]
  · intro env conf
    unfold play_stored_video
    cases hb : env.buttonPressed
    · simp [hb]
    · cases hu : env.uploadedFile with
      | none => simp [hb, hu]
      | some v =>
          rcases ht : storedTryBody env conf
            (display_tracker_options env.displayTrackerSel env.trackerSel).1
            (display_tracker_options env.displayTrackerSel env.trackerSel).2
            with ⟨evs, err⟩
          simp [hb, hu, ht, handleWith_snd]
  · intro env conf hc
    unfold play_rtsp_stream
    cases hb : env.buttonPressed
    · simp [hb]
    · rcases ht : rtspTryBody env conf
        (display_tracker_options env.displayTrackerSel env.trackerSel).1
        (display_tracker_options env.displayTrackerSel env.trackerSel).2
        with ⟨evs, err⟩
      simp [hb, hc, ht, rtspHandle_true_snd]
  · intro env conf e hb h2
    unfold play_youtube_video
    rcases ht : youtubeTryBody env conf
      (display_tracker_options env.displayTrackerSel env.trackerSel).1
      (display_tracker_options env.displayTrackerSel env.trackerSel).2
      with ⟨evs, err⟩
    rw [ht] at h2
    obtain rfl : err = some e := h2
    simp [hb, ht, handleWith, List.mem_append]
  · intro env conf e hb h2
    unfold play_webcam
    rcases ht : webcamTryBody env conf
      (display_tracker_options env.displayTrackerSel env.trackerSel).1
      (display_tracker_options env.displayTrackerSel env.trackerSel).2
      with ⟨evs, err⟩
    rw [ht] at h2
    obtain rfl : err = some e := h2
    simp [hb, ht, handleWith, List.mem_append]
  · intro env conf e v hb hu h2
    unfold play_stored_video
    rcases ht : storedTryBody env conf
      (display_tracker_options env.displayTrackerSel env.trackerSel).1
      (display_tracker_options env.displayTrackerSel env.trackerSel).2
      with ⟨evs, err⟩
    rw [ht] at h2
    obtain rfl : err = some e := h2
    simp [hb, hu, ht, handleWith, List.mem_append]
  · intro env conf e hb hc h2
    unfold play_rtsp_stream
    rcases ht : rtspTryBody env conf
      (display_tracker_options env.displayTrackerSel env.trackerSel).1
      (display_tracker_options env.displayTrackerSel env.trackerSel).2
      with ⟨evs, err⟩
    rw [ht] at h2
    obtain rfl : err = some e := h2
    simp [hb, hc, ht, rtspHandle, List.mem_append]

/-- Witness for C2: the no-escape and surfacing clauses evaluated in
concrete environments, including one whose stream read raises. -/
theorem C2_witness :
    (play_rtsp_stream envBase 1).2 = none ∧
    Ev.sidebarError ("Error loading video: " ++ "stream dropped") ∈
      (play_youtube_video envLoopRaise 1).1 ∧
    Ev.sidebarError ("Error loading video: " ++ "stream dropped") ∈
      (play_webcam envLoopRaise 1).1 ∧
    Ev.sidebarError ("Error loading video: " ++ "stream dropped") ∈
      (play_stored_video envLoopRaise 1).1 ∧
    Ev.sidebarError ("Error loading RTSP stream: " ++ "stream dropped") ∈
      (play_rtsp_stream envLoopRaise 1).1 :=
  ⟨C2_exceptions_caught.2.2.2.1 envBase 1 rfl,
   C2_exceptions_caught.2.2.2.2.1 envLoopRaise 1 "stream dropped" rfl (by decide),
   C2_exceptions_caught.2.2.2.2.2.1 envLoopRaise 1 "stream dropped" rfl (by decide),
   C2_exceptions_caught.2.2.2.2.2.2.1 envLoopRaise 1 "stream dropped" 9 rfl rfl (by decide),
   C2_exceptions_caught.2.2.2.2.2.2.2 envLoopRaise 1 "stream dropped" rfl rfl (by decide)⟩

/-- C7: invalid inputs produce a sidebar error and open no capture: with
the detect button pressed and no uploaded file, play_stored_video shows
only Please upload a video file., creates no temp file and opens no
capture; with extraction succeeding but no format whose video codec is
present, play_youtube_video shows only Failed to retrieve video URL. and
opens no capture. -/
theorem C7_invalid_inputs (env : Env) (conf : Conf) :
    (env.buttonPressed = true → env.uploadedFile = none →
      play_stored_video env conf =
        ([Ev.sidebarError "Please upload a video file."], none) ∧
      Ev.mkTempFile ∉ (play_stored_video env conf).1 ∧
      (∀ s, Ev.openCap s ∉ (play_stored_video env conf).1)) ∧
    (∀ info, env.buttonPressed = true → env.extractResult = Except.ok info →
      specFirstVideoFmt (info.formats.getD []) = none →
      play_youtube_video env conf =
        ([Ev.sidebarError "Failed to retrieve video URL."], none) ∧
      (∀ s, Ev.openCap s ∉ (play_youtube_video env conf).1)) := by
  constructor
  · intro hb hu
    have h : play_stored_video env conf =
        ([Ev.sidebarError "Please upload a video file."], none) := by
      unfold play_stored_video
      simp [hb, hu]
    refine ⟨h, ?_, fun s => ?_⟩ <;> rw [h] <;> simp
  · intro info hb hex hfind
    have hv : videoUrlOf info = none := by
      rw [videoUrlOf_eq, hfind]; rfl
    have h : play_youtube_video env conf =
        ([Ev.sidebarError "Failed to retrieve video URL."], none) := by
      unfold play_youtube_video youtubeTryBody
      simp [hb, hex, hv, handleWith]
    refine ⟨h, fun s => ?_⟩
    rw [h]; simp

/-- Witness for C7: the no-upload and no-video-format environments. -/
theorem C7_witness :
    play_stored_video envNoFile 1 =
      ([Ev.sidebarError "Please upload a video file."], none) ∧
    play_youtube_video envNoMatch 1 =
      ([Ev.sidebarError "Failed to retrieve video URL."], none) :=
  ⟨((C7_invalid_inputs envNoFile 1).1 rfl rfl).1,
   ((C7_invalid_inputs envNoMatch 1).2 ⟨some [⟨some "none", "audio-url"⟩]⟩
      rfl rfl (by decide)).1⟩

/-- C9: the stream URL play_youtube_video opens is the url field of the
first entry, in list order, of the extracted formats list whose vcodec
field is not the string none (the video_url selection refines exactly
that find); when formats is absent or contains no such entry, no capture
is opened. -/
theorem C9_stream_url_selection (env : Env) (conf : Conf) (info : InfoDict)
    (hex : env.extractResult = Except.ok info) :
    videoUrlOf info = (specFirstVideoFmt (info.formats.getD [])).map Fmt.url ∧
    (∀ u, Ev.openCap (CapSource.url u) ∈ (play_youtube_video env conf).1 →
      (specFirstVideoFmt (info.formats.getD [])).map Fmt.url = some u) ∧
    ((specFirstVideoFmt (info.formats.getD [])).map Fmt.url = none →
      ∀ s, Ev.openCap s ∉ (play_youtube_video env conf).1) := by
  refine ⟨videoUrlOf_eq info, ?_, ?_⟩
  · intro u hmem
    rcases play_youtube_shape env conf with h | ⟨m, h⟩ |
      ⟨info2, u2, post, hex2, hv2, hu2, h, hpost⟩
    · rw [h] at hmem; simp at hmem
    · rw [h] at hmem; simp at hmem
    · rw [hex] at hex2
      injection hex2 with hinfo
      subst hinfo
      rw [h] at hmem
      rcases List.mem_cons.mp hmem with heq | hmem2

      · injection heq with hsrc
        injection hsrc with hu'
        subst hu'
        rw [← videoUrlOf_eq]
        exact hv2
      · exfalso
        rcases List.mem_append.mp hmem2 with hloop | hp
        · have hall := frameLoop_all (fun f => display_detected_frames env.M env.C conf f
              (some (display_tracker_options env.displayTrackerSel env.trackerSel).1)
              (display_tracker_options env.displayTrackerSel env.trackerSel).2)
            env.reads (fun e => !isOpenEv e)
            (fun f => all_of_noLoopCtl _ _
              (fun e he => by
                cases e <;> first | rfl | (exfalso; simp [isLoopCtl] at he))
              (display_detected_frames_noLoopCtl _ _ _ _ _ _))
            (fun o => rfl) rfl
          rw [List.all_eq_true] at hall
          have hcontra := hall _ hloop
          simp [isOpenEv] at hcontra
        · rcases hpost with rfl | ⟨m, rfl⟩
          · simp at hp
          · simp at hp
  · intro hn s hmem
    rcases play_youtube_shape env conf with h | ⟨m, h⟩ |
      ⟨info2, u2, post, hex2, hv2, hu2, h, hpost⟩
    · rw [h] at hmem; simp at hmem
    · rw [h] at hmem; simp at hmem
    · rw [hex] at hex2
      injection hex2 with hinfo
      subst hinfo
      rw [videoUrlOf_eq, hn] at hv2
      exact Option.noConfusion hv2

/-- Witness for C9: in envBase the opened URL is the url of the second
format entry, the first whose vcodec is not none. -/
theorem C9_witness :
    (specFirstVideoFmt (infoEx.formats.getD [])).map Fmt.url = some "video-url" :=
  (C9_stream_url_selection envBase 3 infoEx rfl).2.1 "video-url" (by decide)

end ObjDet
